import Mathlib

/-!
Verification of the Recurring Schedule & Cash-Flow Projection Engine of the
Finance-Tracker-Web repository.  The definitions below are shallow embeddings
of the TypeScript source: the frequency enum and zod refinement from
`src/pages/Benefits.tsx` / `src/pages/Payday.tsx`, the occurrence-date
generators `getNextDates` / `getFutureDates` duplicated across the pages,
the monthly normalizers and the projection loop from
`src/pages/Projections.tsx`.  JavaScript `Date` values are modelled as
calendar triples (year, month, day); the `date-fns` helpers `addDays`,
`addWeeks`, `addMonths`, `addYears` are embedded with their clip-to-month
semantics; optional numeric fields are `Option Int` with JS truthiness made
explicit.
-/

namespace FinanceTracker

/-- The `Frequency` union type from `src/types` :
`'WEEKLY' | 'FORTNIGHTLY' | 'MONTHLY' | 'YEARLY' | 'EVERY_X_DAYS' | 'SPECIFIC_DAY'`. -/
inductive Frequency where
  | WEEKLY
  | FORTNIGHTLY
  | MONTHLY
  | YEARLY
  | EVERY_X_DAYS
  | SPECIFIC_DAY
deriving DecidableEq, Repr

/-- JS truthiness of an optional numeric field: `undefined` and `0` are falsy,
every other integer is truthy. -/
def truthy : Option Int → Bool
  | none => false
  | some v => v != 0

/-- JS `a || d` for an optional numeric field `a` with default `d`:
the default is used when the field is absent or zero. -/
def jsOr (cv : Option Int) (dflt : Int) : Int :=
  match cv with
  | none => dflt
  | some v => if v != 0 then v else dflt

/-- JS comparison `cv < n` where `cv` may be `undefined`
(`undefined < n` is `false` in JS). -/
def jsLt (cv : Option Int) (n : Int) : Bool :=
  match cv with
  | none => false
  | some v => v < n

/-- JS comparison `cv > n` where `cv` may be `undefined`. -/
def jsGt (cv : Option Int) (n : Int) : Bool :=
  match cv with
  | none => false
  | some v => n < v

/-- A calendar date (year, month 1..12, day 1..daysInMonth), the value
carried by a JS `Date` at the granularity the engine uses. -/
structure Date where
  year : Int
  month : Int
  day : Int
deriving DecidableEq, Repr

/-- Gregorian leap-year rule, as implemented by the JS `Date` object. -/
def isLeap (y : Int) : Bool :=
  (y % 4 == 0 && y % 100 != 0) || y % 400 == 0

/-- Number of days in a month, the value computed in the source by
`new Date(year, month + 1, 0).getDate()`. -/
def daysInMonth (y m : Int) : Int :=
  if m = 1 then 31
  else if m = 2 then (if isLeap y then 29 else 28)
  else if m = 3 then 31
  else if m = 4 then 30
  else if m = 5 then 31
  else if m = 6 then 30
  else if m = 7 then 31
  else if m = 8 then 31
  else if m = 9 then 30
  else if m = 10 then 31
  else if m = 11 then 30
  else 31

/-- Successor day in the calendar. -/
def nextDay (d : Date) : Date :=
  if d.day < daysInMonth d.year d.month then ⟨d.year, d.month, d.day + 1⟩
  else if d.month < 12 then ⟨d.year, d.month + 1, 1⟩
  else ⟨d.year + 1, 1, 1⟩

/-- Predecessor day in the calendar. -/
def prevDay (d : Date) : Date :=
  if 1 < d.day then ⟨d.year, d.month, d.day - 1⟩
  else if 1 < d.month then ⟨d.year, d.month - 1, daysInMonth d.year (d.month - 1)⟩
  else ⟨d.year - 1, 12, 31⟩

/-- date-fns `addDays(date, k)`; `k` may be negative in JS. -/
def addDays (k : Int) (d : Date) : Date :=
  if 0 ≤ k then nextDay^[k.toNat] d else prevDay^[(-k).toNat] d

/-- date-fns `addWeeks(date, n)`, defined as adding `7 * n` days. -/
def addWeeks (n : Int) (d : Date) : Date :=
  addDays (7 * n) d

/-- date-fns `addMonths(date, 1)`: move to the next calendar month keeping
the day-of-month, clipped to the target month's length. -/
def addMonths1 (d : Date) : Date :=
  if d.month = 12 then ⟨d.year + 1, 1, min d.day (daysInMonth (d.year + 1) 1)⟩
  else ⟨d.year, d.month + 1, min d.day (daysInMonth d.year (d.month + 1))⟩

/-- date-fns `addYears(date, 1)`: same month next year, day clipped
(Feb 29 becomes Feb 28). -/
def addYears1 (d : Date) : Date :=
  ⟨d.year + 1, d.month, min d.day (daysInMonth (d.year + 1) d.month)⟩

/-- The `SPECIFIC_DAY` branch of the generators:
`date = addMonths(date, 1); date.setDate(Math.min(customVal, daysInMonth))`. -/
def specificDayStep (v : Int) (d : Date) : Date :=
  let d1 := addMonths1 d
  ⟨d1.year, d1.month, min v (daysInMonth d1.year d1.month)⟩

/-- Loop body of `getNextDates` in `src/pages/Benefits.tsx` (the
if/else-if chain advancing the running date; a falsy `customVal` makes the
`EVERY_X_DAYS` and `SPECIFIC_DAY` branches fall through, leaving the date
unchanged). -/
def benefitsStep (freq : Frequency) (customVal : Option Int) (date : Date) : Date :=
  if freq = Frequency.WEEKLY then addWeeks 1 date
  else if freq = Frequency.FORTNIGHTLY then addWeeks 2 date
  else if freq = Frequency.MONTHLY then addMonths1 date
  else if freq = Frequency.YEARLY then addYears1 date
  else if freq = Frequency.EVERY_X_DAYS ∧ truthy customVal then addDays (jsOr customVal 0) date
  else if freq = Frequency.SPECIFIC_DAY ∧ truthy customVal then specificDayStep (jsOr customVal 0) date
  else date

/-- The occurrence-date generator `getNextDates` of `src/pages/Benefits.tsx`:
push the running date, then advance it by the frequency step, `count` times. -/
def getNextDates (dateStr : Date) (freq : Frequency) (customVal : Option Int) (count : Nat) :
    List Date :=
  match count with
  | 0 => []
  | Nat.succ k => dateStr :: getNextDates (benefitsStep freq customVal dateStr) freq customVal k

/-- Loop body of `getFutureDates` in `src/pages/Payday.tsx`
(duplicated verbatim from the benefits page). -/
def paydayStep (freq : Frequency) (customVal : Option Int) (date : Date) : Date :=
  if freq = Frequency.WEEKLY then addWeeks 1 date
  else if freq = Frequency.FORTNIGHTLY then addWeeks 2 date
  else if freq = Frequency.MONTHLY then addMonths1 date
  else if freq = Frequency.YEARLY then addYears1 date
  else if freq = Frequency.EVERY_X_DAYS ∧ truthy customVal then addDays (jsOr customVal 0) date
  else if freq = Frequency.SPECIFIC_DAY ∧ truthy customVal then specificDayStep (jsOr customVal 0) date
  else date

/-- The generator `getFutureDates` of `src/pages/Payday.tsx`. -/
def getFutureDates (dateStr : Date) (freq : Frequency) (customVal : Option Int) (count : Nat) :
    List Date :=
  match count with
  | 0 => []
  | Nat.succ k => dateStr :: getFutureDates (paydayStep freq customVal dateStr) freq customVal k

/-- Loop body of `getNextDates` in the recurring-expenses page
(duplicated verbatim again). -/
def expensesStep (freq : Frequency) (customVal : Option Int) (date : Date) : Date :=
  if freq = Frequency.WEEKLY then addWeeks 1 date
  else if freq = Frequency.FORTNIGHTLY then addWeeks 2 date
  else if freq = Frequency.MONTHLY then addMonths1 date
  else if freq = Frequency.YEARLY then addYears1 date
  else if freq = Frequency.EVERY_X_DAYS ∧ truthy customVal then addDays (jsOr customVal 0) date
  else if freq = Frequency.SPECIFIC_DAY ∧ truthy customVal then specificDayStep (jsOr customVal 0) date
  else date

/-- The generator `getNextDates` of the recurring-expenses page. -/
def getNextDatesExpenses (dateStr : Date) (freq : Frequency) (customVal : Option Int)
    (count : Nat) : List Date :=
  match count with
  | 0 => []
  | Nat.succ k =>
      dateStr :: getNextDatesExpenses (expensesStep freq customVal dateStr) freq customVal k

/-- The zod `.refine` shared by the benefits, payday and recurring-expense
schemas: rejects `EVERY_X_DAYS` with `!custom_value || custom_value < 1` and
`SPECIFIC_DAY` with `!custom_value || custom_value < 1 || custom_value > 31`. -/
def validateCustom (freq : Frequency) (cv : Option Int) : Bool :=
  if freq == Frequency.EVERY_X_DAYS && (!(truthy cv) || jsLt cv 1) then false
  else if freq == Frequency.SPECIFIC_DAY && (!(truthy cv) || jsLt cv 1 || jsGt cv 31) then false
  else true

/-- The error taxonomy of the specification for policy validation. -/
inductive ValidationError where
  | invalidCustomValue
deriving DecidableEq, Repr

/-- Result-typed view of the schema refinement: a failing policy yields the
`InvalidCustomValue` error (the schema's "Invalid custom value" message). -/
def validate (freq : Frequency) (cv : Option Int) : Except ValidationError Unit :=
  if validateCustom freq cv then Except.ok () else Except.error ValidationError.invalidCustomValue

/-- A recurring record as consumed by the projection page: an amount, a
frequency and the optional `custom_value` field (a benefit, a payday or a
recurring bill are structurally identical). -/
structure RecurringRecord where
  amount : ℚ
  frequency : Frequency
  custom_value : Option Int
deriving DecidableEq, Repr

/-- The per-bill monthly value computed inside `monthlyFixedCosts` in
`src/pages/Projections.tsx` (the `switch (bill.frequency)` block; the
`EVERY_X_DAYS` divisor is `bill.custom_value || 30`). -/
def billMonthlyValue (bill : RecurringRecord) : ℚ :=
  match bill.frequency with
  | Frequency.WEEKLY => bill.amount * 52 / 12
  | Frequency.FORTNIGHTLY => bill.amount * 26 / 12
  | Frequency.MONTHLY => bill.amount
  | Frequency.SPECIFIC_DAY => bill.amount
  | Frequency.YEARLY => bill.amount / 12
  | Frequency.EVERY_X_DAYS => bill.amount * 365 / (jsOr bill.custom_value 30 : Int) / 12

/-- The per-benefit monthly value computed inside `monthlyBenefits` in
`src/pages/Projections.tsx` (same switch, except the `EVERY_X_DAYS`
divisor is `b.custom_value || 1`). -/
def benefitMonthlyValue (b : RecurringRecord) : ℚ :=
  match b.frequency with
  | Frequency.WEEKLY => b.amount * 52 / 12
  | Frequency.FORTNIGHTLY => b.amount * 26 / 12
  | Frequency.MONTHLY => b.amount
  | Frequency.SPECIFIC_DAY => b.amount
  | Frequency.YEARLY => b.amount / 12
  | Frequency.EVERY_X_DAYS => b.amount * 365 / (jsOr b.custom_value 1 : Int) / 12

/-- `monthlyFixedCosts`: `recurringBills.reduce(..., 0)` summing the per-bill
monthly values. -/
def monthlyFixedCosts (bills : List RecurringRecord) : ℚ :=
  bills.foldl (fun acc bill => acc + billMonthlyValue bill) 0

/-- `monthlyBenefits`: `benefits.reduce(..., 0)` summing the per-benefit
monthly values. -/
def monthlyBenefits (benefits : List RecurringRecord) : ℚ :=
  benefits.foldl (fun acc b => acc + benefitMonthlyValue b) 0

/-- `avgHistoryExpense = totalHistoryExpenses / (expenses.length > 0 ? 3 : 1)`
over the list of historical expense amounts. -/
def avgHistoryExpense (expenses : List ℚ) : ℚ :=
  (expenses.foldl (fun acc amt => acc + amt) 0) / (if 0 < expenses.length then 3 else 1)

/-- The `projectedMonthlyExpense` blending logic of `src/pages/Projections.tsx`:
fixed costs plus 50% of the historical average when bills exist, otherwise the
historical average with a `1500` fallback. -/
def projectedMonthlyExpense (bills : List RecurringRecord) (expenses : List ℚ) : ℚ :=
  if 0 < monthlyFixedCosts bills then
    monthlyFixedCosts bills + avgHistoryExpense expenses * (1 / 2)
  else if 0 < avgHistoryExpense expenses then avgHistoryExpense expenses else 1500

/-- The base salary assumption added to recurring income in the projection
loop (`const projectedIncome = monthlyBenefits + 2000`). -/
def baseIncomeAssumption : ℚ := 2000

/-- English month abbreviation used by `format(date, 'MMM yyyy')`. -/
def monthAbbrev (m : Int) : String :=
  if m = 1 then "Jan"
  else if m = 2 then "Feb"
  else if m = 3 then "Mar"
  else if m = 4 then "Apr"
  else if m = 5 then "May"
  else if m = 6 then "Jun"
  else if m = 7 then "Jul"
  else if m = 8 then "Aug"
  else if m = 9 then "Sep"
  else if m = 10 then "Oct"
  else if m = 11 then "Nov"
  else "Dec"

/-- The month label `format(monthDate, 'MMM yyyy')`. -/
def monthLabel (d : Date) : String :=
  monthAbbrev d.month ++ " " ++ toString d.year

/-- date-fns `addMonths(date, n)` for a non-negative month offset: set the
month index, carry into the year, and clip the day to the target month. -/
def addMonthsN (d : Date) (n : Nat) : Date :=
  let t : Int := d.month - 1 + n
  let y := d.year + t / 12
  let m := t % 12 + 1
  ⟨y, m, min d.day (daysInMonth y m)⟩

/-- One row of the `projectionData` array
(`{ month, Income, Expenses, Savings }`). -/
structure ProjectionPoint where
  month : String
  Income : ℚ
  Expenses : ℚ
  Savings : ℚ
deriving DecidableEq, Repr

/-- The projection loop body: starting at month index `i` with accumulated
savings `savings`, emit the remaining points
(`net = projectedIncome - projectedMonthlyExpense; currentSavings += net`). -/
def projectGo (income expense : ℚ) (now : Date) (i : Nat) (savings : ℚ) :
    Nat → List ProjectionPoint
  | 0 => []
  | Nat.succ k =>
      let net := income - expense
      let s := savings + net
      { month := monthLabel (addMonthsN now i), Income := income, Expenses := expense,
        Savings := s } :: projectGo income expense now (i + 1) s k

/-- The projection engine of `src/pages/Projections.tsx` with the loop bound
as a parameter: income is `monthlyBenefits + 2000`, expense is the blended
`projectedMonthlyExpense`, and savings accumulate the constant net. -/
def project (now : Date) (benefits bills : List RecurringRecord) (expenses : List ℚ)
    (months : Nat) : List ProjectionPoint :=
  projectGo (monthlyBenefits benefits + baseIncomeAssumption)
    (projectedMonthlyExpense bills expenses) now 0 0 months

/-- The `projectionData` value itself, whose loop is hardcoded to 6 months
(`for (let i = 0; i < 6; i++)`). -/
def projectionData (now : Date) (benefits bills : List RecurringRecord)
    (expenses : List ℚ) : List ProjectionPoint :=
  project now benefits bills expenses 6

/-- Strict chronological order on calendar dates (lexicographic on
year, month, day). -/
def Date.lt (a b : Date) : Prop :=
  a.year < b.year ∨ (a.year = b.year ∧ (a.month < b.month ∨ (a.month = b.month ∧ a.day < b.day)))

instance Date.decidableLt (a b : Date) : Decidable (Date.lt a b) := by
  unfold Date.lt
  infer_instance

/-- The per-kind step of the specification's generator contract (§4.2 table):
+7 days, +14 days, +1 month, +1 year, +customValue days, or
next-month-then-set-day. -/
def claimStep (freq : Frequency) (cv : Option Int) (d : Date) : Date :=
  match freq with
  | Frequency.WEEKLY => addDays 7 d
  | Frequency.FORTNIGHTLY => addDays 14 d
  | Frequency.MONTHLY => addMonths1 d
  | Frequency.YEARLY => addYears1 d
  | Frequency.EVERY_X_DAYS => addDays (jsOr cv 0) d
  | Frequency.SPECIFIC_DAY => specificDayStep (jsOr cv 0) d

theorem dateLt_trans {a b c : Date} (h1 : Date.lt a b) (h2 : Date.lt b c) : Date.lt a c := by
  obtain ⟨y1, m1, d1⟩ := a
  obtain ⟨y2, m2, d2⟩ := b
  obtain ⟨y3, m3, d3⟩ := c
  simp only [Date.lt] at h1 h2 ⊢
  omega

theorem lt_nextDay (d : Date) : Date.lt d (nextDay d) := by
  obtain ⟨y, m, dd⟩ := d
  simp only [nextDay, Date.lt]
  split_ifs <;> simp_all

theorem lt_iterate_nextDay (n : Nat) (d : Date) : Date.lt d (nextDay^[n + 1] d) := by
  induction n generalizing d with
  | zero => simpa using lt_nextDay d
  | succ k ih =>
      rw [Function.iterate_succ_apply]
      exact dateLt_trans (lt_nextDay d) (ih (nextDay d))

theorem lt_addDays {k : Int} (hk : 1 ≤ k) (d : Date) : Date.lt d (addDays k d) := by
  unfold addDays
  rw [if_pos (by omega)]
  obtain ⟨n, hn⟩ : ∃ n, k.toNat = n + 1 := ⟨k.toNat - 1, by omega⟩
  rw [hn]
  exact lt_iterate_nextDay n d

theorem lt_addMonths1 (d : Date) : Date.lt d (addMonths1 d) := by
  obtain ⟨y, m, dd⟩ := d
  simp only [addMonths1, Date.lt]
  split_ifs <;> simp_all

theorem lt_addYears1 (d : Date) : Date.lt d (addYears1 d) := by
  obtain ⟨y, m, dd⟩ := d
  simp only [addYears1, Date.lt]
  omega

theorem lt_specificDayStep (v : Int) (d : Date) : Date.lt d (specificDayStep v d) := by
  obtain ⟨y, m, dd⟩ := d
  simp only [specificDayStep, addMonths1, Date.lt]
  split_ifs <;> simp_all

theorem valid_everyX {cv : Option Int}
    (h : validateCustom Frequency.EVERY_X_DAYS cv = true) : ∃ v, cv = some v ∧ 1 ≤ v := by
  cases cv with
  | none => simp [validateCustom, truthy, jsLt] at h
  | some v =>
      simp [validateCustom, truthy, jsLt] at h
      exact ⟨v, rfl, by omega⟩

theorem valid_specific {cv : Option Int}
    (h : validateCustom Frequency.SPECIFIC_DAY cv = true) :
    ∃ v, cv = some v ∧ 1 ≤ v ∧ v ≤ 31 := by
  cases cv with
  | none => simp [validateCustom, truthy, jsLt, jsGt] at h
  | some v =>
      simp [validateCustom, truthy, jsLt, jsGt] at h
      exact ⟨v, rfl, by omega, by omega⟩

theorem benefitsStep_valid (freq : Frequency) (cv : Option Int) (d : Date)
    (h : validateCustom freq cv = true) : benefitsStep freq cv d = claimStep freq cv d := by
  cases freq with
  | WEEKLY => simp [benefitsStep, claimStep, addWeeks]
  | FORTNIGHTLY => simp [benefitsStep, claimStep, addWeeks]
  | MONTHLY => simp [benefitsStep, claimStep]
  | YEARLY => simp [benefitsStep, claimStep]
  | EVERY_X_DAYS =>
      obtain ⟨v, rfl, hv⟩ := valid_everyX h
      simp [benefitsStep, claimStep, truthy, show v ≠ 0 by omega]
  | SPECIFIC_DAY =>
      obtain ⟨v, rfl, hv, _⟩ := valid_specific h
      simp [benefitsStep, claimStep, truthy, show v ≠ 0 by omega]

theorem lt_claimStep (freq : Frequency) (cv : Option Int) (d : Date)
    (h : validateCustom freq cv = true) : Date.lt d (claimStep freq cv d) := by
  cases freq with
  | WEEKLY => exact lt_addDays (by norm_num) d
  | FORTNIGHTLY => exact lt_addDays (by norm_num) d
  | MONTHLY => exact lt_addMonths1 d
  | YEARLY => exact lt_addYears1 d
  | EVERY_X_DAYS =>
      obtain ⟨v, rfl, hv⟩ := valid_everyX h
      have : jsOr (some v) 0 = v := by simp [jsOr, show v ≠ 0 by omega]
      simpa [claimStep, this] using lt_addDays hv d
  | SPECIFIC_DAY => exact lt_specificDayStep _ d

theorem getNextDates_valid_eq (freq : Frequency) (cv : Option Int)
    (h : validateCustom freq cv = true) (count : Nat) (d : Date) :
    getNextDates d freq cv count = (List.range count).map (fun i => (claimStep freq cv)^[i] d) := by
  induction count generalizing d with
  | zero => simp [getNextDates]
  | succ k ih =>
      have hs := benefitsStep_valid freq cv d h
      calc getNextDates d freq cv (k + 1)
          = d :: getNextDates (benefitsStep freq cv d) freq cv k := rfl
        _ = d :: getNextDates (claimStep freq cv d) freq cv k := by rw [hs]
        _ = d :: (List.range k).map (fun i => (claimStep freq cv)^[i] (claimStep freq cv d)) :=
            by rw [ih]
        _ = (List.range (k + 1)).map (fun i => (claimStep freq cv)^[i] d) := by
            rw [List.range_succ_eq_map]
            simp [List.map_map, Function.comp_def, Function.iterate_succ_apply]

theorem getNextDates_chain (freq : Frequency) (cv : Option Int)
    (h : validateCustom freq cv = true) (count : Nat) (d : Date) :
    List.Chain' Date.lt (getNextDates d freq cv count) := by
  induction count generalizing d with
  | zero => simp [getNextDates]
  | succ k ih =>
      cases k with
      | zero => simp [getNextDates]
      | succ j =>
          have hstep : Date.lt d (benefitsStep freq cv d) := by
            rw [benefitsStep_valid freq cv d h]
            exact lt_claimStep freq cv d h
          exact List.Chain'.cons hstep (ih (benefitsStep freq cv d))

theorem benefitsStep_falsy (freq : Frequency) (d : Date)
    (hfreq : freq = Frequency.EVERY_X_DAYS ∨ freq = Frequency.SPECIFIC_DAY)
    {cv : Option Int} (hcv : cv = none ∨ cv = some 0) : benefitsStep freq cv d = d := by
  rcases hfreq with rfl | rfl <;> rcases hcv with rfl | rfl <;> simp [benefitsStep, truthy]

theorem projectGo_length (income expense : ℚ) (now : Date) (count : Nat) :
    ∀ (i : Nat) (savings : ℚ), (projectGo income expense now i savings count).length = count := by
  induction count with
  | zero => intro i savings; rfl
  | succ k ih => intro i savings; simpa [projectGo] using ih (i + 1) _

theorem projectGo_numeric (income expense : ℚ) (now now2 : Date) (count : Nat) :
    ∀ (i i2 : Nat) (savings : ℚ),
      (projectGo income expense now i savings count).map
          (fun p => (p.Income, p.Expenses, p.Savings)) =
        (projectGo income expense now2 i2 savings count).map
          (fun p => (p.Income, p.Expenses, p.Savings)) := by
  induction count with
  | zero => intro i i2 savings; rfl
  | succ k ih =>
      intro i i2 savings
      simpa [projectGo] using ih (i + 1) (i2 + 1) _

/-- C3: for every valid pair (anchorDate, policy) and every count, the
generator returns exactly `count` dates, the first equal to the anchor, each
subsequent date obtained from the previous one by the per-kind step, and the
sequence is strictly increasing. -/
theorem generate_valid_spec (d : Date) (freq : Frequency) (cv : Option Int) (count : Nat)
    (h : validateCustom freq cv = true) :
    (getNextDates d freq cv count).length = count
    ∧ (getNextDates d freq cv count).head? = (if count = 0 then none else some d)
    ∧ getNextDates d freq cv count = (List.range count).map (fun i => (claimStep freq cv)^[i] d)
    ∧ List.Chain' Date.lt (getNextDates d freq cv count) := by
  refine ⟨?_, ?_, getNextDates_valid_eq freq cv h count d, getNextDates_chain freq cv h count d⟩
  · rw [getNextDates_valid_eq freq cv h count d]
    simp
  · cases count with
    | zero => rfl
    | succ k => rfl

/-- Witness for C3 at a concrete valid input (weekly policy, three dates). -/
theorem generate_valid_spec_witness :
    validateCustom Frequency.WEEKLY none = true
    ∧ ((getNextDates ⟨2024, 1, 1⟩ Frequency.WEEKLY none 3).length = 3
        ∧ (getNextDates ⟨2024, 1, 1⟩ Frequency.WEEKLY none 3).head? =
            (if 3 = 0 then none else some ⟨2024, 1, 1⟩)
        ∧ getNextDates ⟨2024, 1, 1⟩ Frequency.WEEKLY none 3 =
            (List.range 3).map (fun i => (claimStep Frequency.WEEKLY none)^[i] ⟨2024, 1, 1⟩)
        ∧ List.Chain' Date.lt (getNextDates ⟨2024, 1, 1⟩ Frequency.WEEKLY none 3)) :=
  ⟨by decide, generate_valid_spec ⟨2024, 1, 1⟩ Frequency.WEEKLY none 3 (by decide)⟩

set_option maxRecDepth 10000 in
/-- C8: for `EVERY_X_DAYS` with customValue 28 and anchor 2024-01-01, four
occurrences are 2024-01-01, 2024-01-29, 2024-02-26 and 2024-03-25. -/
theorem every28_dates_2024 :
    getNextDates ⟨2024, 1, 1⟩ Frequency.EVERY_X_DAYS (some 28) 4 =
      [⟨2024, 1, 1⟩, ⟨2024, 1, 29⟩, ⟨2024, 2, 26⟩, ⟨2024, 3, 25⟩] := by
  decide

/-- C10: the three duplicated generators (benefits page, payday page,
recurring-expenses page) compute the same function of
(date, frequency, customValue, count). -/
theorem generators_identical (d : Date) (freq : Frequency) (cv : Option Int) (count : Nat) :
    getFutureDates d freq cv count = getNextDates d freq cv count
    ∧ getNextDatesExpenses d freq cv count = getNextDates d freq cv count := by
  induction count generalizing d with
  | zero => exact ⟨rfl, rfl⟩
  | succ k ih =>
      obtain ⟨ih1, ih2⟩ := ih (benefitsStep freq cv d)
      constructor
      · show d :: getFutureDates (paydayStep freq cv d) freq cv k
            = d :: getNextDates (benefitsStep freq cv d) freq cv k
        rw [show paydayStep freq cv d = benefitsStep freq cv d from rfl, ih1]
      · show d :: getNextDatesExpenses (expensesStep freq cv d) freq cv k
            = d :: getNextDates (benefitsStep freq cv d) freq cv k
        rw [show expensesStep freq cv d = benefitsStep freq cv d from rfl, ih2]

/-- C2 counterexample: a policy that fails validation (EVERY_X_DAYS with
customValue 0) does not make the generator fail; it still produces `count`
dates (all equal to the anchor). -/
theorem generate_invalid_policy_still_produces_dates :
    validateCustom Frequency.EVERY_X_DAYS (some 0) = false
    ∧ getNextDates ⟨2024, 1, 1⟩ Frequency.EVERY_X_DAYS (some 0) 3 =
        [⟨2024, 1, 1⟩, ⟨2024, 1, 1⟩, ⟨2024, 1, 1⟩]
    ∧ getNextDates ⟨2024, 1, 1⟩ Frequency.EVERY_X_DAYS (some 0) 3 ≠ [] := by
  decide

/-- C2 amended: the generators perform no validation; for EVERY_X_DAYS or
SPECIFIC_DAY with an absent or zero customValue (which the schema rejects)
they return `count` copies of the anchor date instead of failing. -/
theorem generate_falsy_custom_replicates_anchor (freq : Frequency) (cv : Option Int)
    (d : Date) (count : Nat)
    (hfreq : freq = Frequency.EVERY_X_DAYS ∨ freq = Frequency.SPECIFIC_DAY)
    (hcv : cv = none ∨ cv = some 0) :
    validateCustom freq cv = false ∧ getNextDates d freq cv count = List.replicate count d := by
  constructor
  · rcases hfreq with rfl | rfl <;> rcases hcv with rfl | rfl <;> decide
  · induction count generalizing d with
    | zero => rfl
    | succ k ih =>
        calc getNextDates d freq cv (k + 1)
            = d :: getNextDates (benefitsStep freq cv d) freq cv k := rfl
          _ = d :: getNextDates d freq cv k := by rw [benefitsStep_falsy freq d hfreq hcv]
          _ = d :: List.replicate k d := by rw [ih]
          _ = List.replicate (k + 1) d := by rw [List.replicate_succ]

/-- Witness for the amended C2 at a concrete invalid policy. -/
theorem generate_falsy_custom_replicates_anchor_witness :
    validateCustom Frequency.EVERY_X_DAYS (some 0) = false
    ∧ getNextDates ⟨2024, 1, 1⟩ Frequency.EVERY_X_DAYS (some 0) 3 =
        List.replicate 3 ⟨2024, 1, 1⟩ :=
  generate_falsy_custom_replicates_anchor Frequency.EVERY_X_DAYS (some 0) ⟨2024, 1, 1⟩ 3
    (Or.inl rfl) (Or.inr rfl)

/-- C6 counterexample: with customValue 31 and an anchor in the 30-day month
April 2024, the occurrence generated after the anchor is 2024-05-31 — day 31
of the following (31-day) month, not day 30. -/
theorem specific_day_anchor_in_30day_month_not_clipped :
    daysInMonth 2024 4 = 30
    ∧ getNextDates ⟨2024, 4, 15⟩ Frequency.SPECIFIC_DAY (some 31) 2 =
        [⟨2024, 4, 15⟩, ⟨2024, 5, 31⟩]
    ∧ (⟨2024, 5, 31⟩ : Date).day ≠ 30 := by
  decide

/-- C6 amended: for SPECIFIC_DAY with customValue in [1,31], the occurrence
generated after any anchor lies in the calendar month immediately after the
anchor's, on day `min(customValue, daysInThatMonth)` — so with customValue 31
it falls on day 30 exactly when that following month has 30 days, and no
carry-over into a later month ever occurs. -/
theorem specific_day_clipping (d : Date) (v : Int) (h1 : 1 ≤ v) (h31 : v ≤ 31) :
    ∃ e : Date,
      getNextDates d Frequency.SPECIFIC_DAY (some v) 2 = [d, e]
      ∧ e.year = (if d.month = 12 then d.year + 1 else d.year)
      ∧ e.month = (if d.month = 12 then 1 else d.month + 1)
      ∧ e.day = min v (daysInMonth e.year e.month)
      ∧ (daysInMonth e.year e.month = 30 → v = 31 → e.day = 30) := by
  refine ⟨benefitsStep Frequency.SPECIFIC_DAY (some v) d, rfl, ?_⟩
  have hstep : benefitsStep Frequency.SPECIFIC_DAY (some v) d = specificDayStep v d := by
    simp [benefitsStep, truthy, jsOr, show v ≠ 0 by omega]
  rw [hstep]
  obtain ⟨y, m, dd⟩ := d
  simp only [specificDayStep, addMonths1]
  split_ifs with hm <;> simp_all

/-- Witness for the amended C6: anchor 2024-05-10, whose following month June
has 30 days, with customValue 31. -/
theorem specific_day_clipping_witness :
    ∃ e : Date,
      getNextDates ⟨2024, 5, 10⟩ Frequency.SPECIFIC_DAY (some 31) 2 = [⟨2024, 5, 10⟩, e]
      ∧ e.year = (if (⟨2024, 5, 10⟩ : Date).month = 12 then 2024 + 1 else 2024)
      ∧ e.month = (if (⟨2024, 5, 10⟩ : Date).month = 12 then 1 else (⟨2024, 5, 10⟩ : Date).month + 1)
      ∧ e.day = min 31 (daysInMonth e.year e.month)
      ∧ (daysInMonth e.year e.month = 30 → (31 : Int) = 31 → e.day = 30) :=
  specific_day_clipping ⟨2024, 5, 10⟩ 31 (by norm_num) (by norm_num)

/-- C9 counterexample: for EVERY_X_DAYS (and SPECIFIC_DAY) with an absent
customValue, validation fails with InvalidCustomValue even though the claim's
conditions (`customValue < 1`, `customValue outside [1,31]`) do not hold for an
absent value — the JS comparisons against `undefined` are both false. -/
theorem validate_absent_customValue_fails :
    validate Frequency.EVERY_X_DAYS none = Except.error ValidationError.invalidCustomValue
    ∧ validate Frequency.SPECIFIC_DAY none = Except.error ValidationError.invalidCustomValue
    ∧ jsLt none 1 = false
    ∧ jsGt none 31 = false :=
  ⟨rfl, rfl, rfl, rfl⟩

/-- C9 amended: validation fails with InvalidCustomValue exactly when the kind
is EVERY_X_DAYS and customValue is absent or below 1, or the kind is
SPECIFIC_DAY and customValue is absent or outside [1,31]; customValue 0 and 32
fail for SPECIFIC_DAY, and every other kind always succeeds regardless of
customValue. -/
theorem validate_invalidCustomValue_iff_all :
    (∀ (freq : Frequency) (cv : Option Int),
        validate freq cv = Except.error ValidationError.invalidCustomValue ↔
          (freq = Frequency.EVERY_X_DAYS ∧ (cv = none ∨ ∃ v, cv = some v ∧ v < 1))
            ∨ (freq = Frequency.SPECIFIC_DAY ∧
                (cv = none ∨ ∃ v, cv = some v ∧ (v < 1 ∨ 31 < v))))
    ∧ validate Frequency.SPECIFIC_DAY (some 0) = Except.error ValidationError.invalidCustomValue
    ∧ validate Frequency.SPECIFIC_DAY (some 32) = Except.error ValidationError.invalidCustomValue
    ∧ ∀ (cv : Option Int),
        validate Frequency.WEEKLY cv = Except.ok ()
        ∧ validate Frequency.FORTNIGHTLY cv = Except.ok ()
        ∧ validate Frequency.MONTHLY cv = Except.ok ()
        ∧ validate Frequency.YEARLY cv = Except.ok () := by
  refine ⟨?_, by rfl, by rfl, ?_⟩
  · intro freq cv
    cases freq <;> cases cv <;> simp [validate, validateCustom, truthy, jsLt, jsGt] <;> omega
  · intro cv
    cases cv <;> simp [validate, validateCustom, truthy, jsLt, jsGt]

/-- C1 counterexample: for EVERY_X_DAYS with an absent customValue, the bill
normalizer uses the default 30 (amount × 365 / 30 / 12) but the benefit
normalizer uses the default 1, so the conversion is not identical for
recurring income and recurring bills. -/
theorem everyNDays_default_differs_for_benefit :
    billMonthlyValue ⟨120, Frequency.EVERY_X_DAYS, none⟩ = 120 * 365 / 30 / 12
    ∧ benefitMonthlyValue ⟨120, Frequency.EVERY_X_DAYS, none⟩ ≠ 120 * 365 / 30 / 12
    ∧ benefitMonthlyValue ⟨120, Frequency.EVERY_X_DAYS, none⟩ = 120 * 365 / 1 / 12 := by
  refine ⟨?_, ?_, ?_⟩ <;> norm_num [billMonthlyValue, benefitMonthlyValue, jsOr]

/-- C1 amended: for EVERY_X_DAYS both normalizers compute
amount × 365 / customValue / 12, but the recurring-bill normalizer defaults
customValue to 30 when absent or zero while the recurring-benefit normalizer
defaults it to 1. -/
theorem toMonthlyValue_everyNDays_defaults (a : ℚ) (cv : Option Int) :
    billMonthlyValue ⟨a, Frequency.EVERY_X_DAYS, cv⟩ = a * 365 / ((jsOr cv 30 : Int) : ℚ) / 12
    ∧ benefitMonthlyValue ⟨a, Frequency.EVERY_X_DAYS, cv⟩ = a * 365 / ((jsOr cv 1 : Int) : ℚ) / 12
    ∧ jsOr none 30 = 30 ∧ jsOr (some 0) 30 = 30
    ∧ jsOr none 1 = 1 ∧ jsOr (some 0) 1 = 1 :=
  ⟨rfl, rfl, rfl, rfl, rfl, rfl⟩

/-- C4: the historical average is the sum of samples divided by 3 when any
samples exist (1 otherwise), and the projected monthly expense blends fixed
costs with half of that average when fixed costs are positive, otherwise
falls back to the average or, when it is zero, to the constant 1500. -/
theorem projected_expense_blend (bills : List RecurringRecord) (expenses : List ℚ)
    (hnn : ∀ e ∈ expenses, 0 ≤ e) :
    avgHistoryExpense expenses = expenses.sum / (if expenses = [] then 1 else 3)
    ∧ (0 < monthlyFixedCosts bills →
        projectedMonthlyExpense bills expenses =
          monthlyFixedCosts bills + avgHistoryExpense expenses * (1 / 2))
    ∧ (monthlyFixedCosts bills ≤ 0 →
        projectedMonthlyExpense bills expenses =
          if avgHistoryExpense expenses = 0 then 1500 else avgHistoryExpense expenses) := by
  have havg : avgHistoryExpense expenses = expenses.sum / (if expenses = [] then 1 else 3) := by
    cases expenses with
    | nil => simp [avgHistoryExpense]
    | cons a l => simp [avgHistoryExpense, List.sum_eq_foldl]
  have hpos : 0 ≤ avgHistoryExpense expenses := by
    rw [havg]
    have := List.sum_nonneg hnn
    split_ifs <;> positivity
  refine ⟨havg, ?_, ?_⟩
  · intro h
    rw [projectedMonthlyExpense, if_pos h]
  · intro h
    rw [projectedMonthlyExpense, if_neg (not_lt.mpr h)]
    rcases eq_or_lt_of_le hpos with heq | hlt
    · rw [if_neg (by rw [← heq]; exact lt_irrefl 0), if_pos heq.symm]
    · rw [if_pos hlt, if_neg hlt.ne']

/-- Witness for C4 at one recurring bill and one historical sample. -/
theorem projected_expense_blend_witness :
    avgHistoryExpense [(30 : ℚ)] = [(30 : ℚ)].sum / (if [(30 : ℚ)] = [] then 1 else 3)
    ∧ (0 < monthlyFixedCosts [⟨100, Frequency.MONTHLY, none⟩] →
        projectedMonthlyExpense [⟨100, Frequency.MONTHLY, none⟩] [(30 : ℚ)] =
          monthlyFixedCosts [⟨100, Frequency.MONTHLY, none⟩]
            + avgHistoryExpense [(30 : ℚ)] * (1 / 2))
    ∧ (monthlyFixedCosts [⟨100, Frequency.MONTHLY, none⟩] ≤ 0 →
        projectedMonthlyExpense [⟨100, Frequency.MONTHLY, none⟩] [(30 : ℚ)] =
          if avgHistoryExpense [(30 : ℚ)] = 0 then 1500 else avgHistoryExpense [(30 : ℚ)]) :=
  projected_expense_blend [⟨100, Frequency.MONTHLY, none⟩] [(30 : ℚ)]
    (by intro e he; rw [List.mem_singleton] at he; rw [he]; norm_num)

/-- C5 counterexample: the projection reads the current date for its month
labels, so two calls with identical recurring lists, historical samples and
months horizon — but made at different current dates — produce different
output sequences. -/
theorem project_depends_on_current_date :
    project ⟨2024, 1, 1⟩ [] [] [] 1 ≠ project ⟨2024, 2, 1⟩ [] [] [] 1 := by
  decide

/-- C5 amended: the generators are pure, and the projection is a pure
function of its inputs together with the current date; its numeric fields
(projectedIncome, projectedExpense, cumulativeSavings) depend only on the
recurring lists, the historical samples and the months horizon — only the
month labels depend on the invocation date. -/
theorem project_numeric_determinism (now now2 : Date) (benefits bills : List RecurringRecord)
    (expenses : List ℚ) (months : Nat) :
    (project now benefits bills expenses months).map
        (fun p => (p.Income, p.Expenses, p.Savings)) =
      (project now2 benefits bills expenses months).map
        (fun p => (p.Income, p.Expenses, p.Savings)) :=
  projectGo_numeric _ _ now now2 months 0 0 0

/-- C7: the projection emits exactly `months` points, and in the instance
with one recurring bill of monthly value 1000, no history, no recurring
income and a 6-month horizon, every point's expense is 1000 and the savings
at index i are (baseIncomeAssumption − 1000) × (i + 1). -/
theorem project_length_and_instance :
    (∀ (now : Date) (benefits bills : List RecurringRecord) (expenses : List ℚ) (months : Nat),
        (project now benefits bills expenses months).length = months)
    ∧ (project ⟨2024, 1, 1⟩ [] [⟨1000, Frequency.MONTHLY, none⟩] [] 6).map
          ProjectionPoint.Expenses = [1000, 1000, 1000, 1000, 1000, 1000]
    ∧ (project ⟨2024, 1, 1⟩ [] [⟨1000, Frequency.MONTHLY, none⟩] [] 6).map
          ProjectionPoint.Savings =
        [(baseIncomeAssumption - 1000) * 1, (baseIncomeAssumption - 1000) * 2,
          (baseIncomeAssumption - 1000) * 3, (baseIncomeAssumption - 1000) * 4,
          (baseIncomeAssumption - 1000) * 5, (baseIncomeAssumption - 1000) * 6] := by
  refine ⟨fun now benefits bills expenses months => projectGo_length _ _ now months 0 0, ?_, ?_⟩ <;>
    norm_num [project, projectGo, monthlyBenefits, monthlyFixedCosts, billMonthlyValue,
      avgHistoryExpense, projectedMonthlyExpense, baseIncomeAssumption]

end FinanceTracker
